import Mathlib

/-!
Shallow embedding of the Weenix VFS path-name resolver
(`src/weenix/kernel/fs/namev.c`) and a verification of the specification
claims against it.

Modelling conventions:
* A `vnode_t*` is an `Option Nat`: `none` is the NULL pointer, `some n` a
  pointer to the node with identifier `n`.
* C strings are `List Char` without the terminating byte; `strlen` is
  `List.length`.  A `char` buffer of capacity `k` is a `List Char` of
  length `k`; a store beyond the allocation is dropped by `List.set`
  (such a store is out of bounds in the source and is unreachable in the
  developments below).
* C `int` indices and return codes are `Int`; `size_t` values are `Nat`.
* The external collaborators (the per-node-type `lookup`/`create`/`readdir`
  operations, `vfs_root_vn`, `curproc->p_cwd`) are a structure of pure
  functions `FS` and a context `Ctx`.  The per-type lookup operation stores
  the found node in the result cell on success and leaves the cell
  untouched when the entry is absent; its return value is ignored by the
  caller in the source.
* Every loop takes explicit fuel; a result of `none` means the loop is
  still running when the fuel runs out.  Theorems quantified over all fuel
  therefore establish non-termination of the source loop.
* Reference-count effects are recorded as ghost lists of node identifiers
  (`vref`/`vput` logs); a null-pointer dereference is a dedicated `crash`
  outcome.
* Error codes from the external `errno.h`: `ENOENT = 2`, `EINVAL = 22`,
  `ENOTDIR = 20`, `ERANGE = 34`; from `fs/fcntl.h`: `O_CREAT = 0x100`.
-/

/-- External collaborators of the resolver: the pluggable per-node-type
operation set and per-node attributes, as pure functions of the node id. -/
structure FS where
  /-- whether `vn_ops->lookup` is a non-null function pointer -/
  hasLookup : Nat → Bool
  /-- behaviour of the per-type lookup operation: the child node a name
  resolves to in a directory, `none` when the entry is absent -/
  childLookup : Nat → List Char → Option Nat
  /-- `vn_len` of a node (C `int`) -/
  vnLen : Nat → Int
  /-- `vn_ops->readdir`: next offset returned for a scan at an offset -/
  readdirOff : Nat → Int → Int
  /-- `vn_ops->readdir`: the directory entry written through the entry
  pointer for a scan at an offset -/
  readdirEnt : Nat → Int → Nat × List Char
  /-- `vn_vno`, the inode number of a node -/
  ino : Nat → Nat
  /-- return code of `vn_ops->create` -/
  createRet : Nat → List Char → Nat → Int

/-- Process and global context: `vfs_root_vn` and `curproc->p_cwd`. -/
structure Ctx where
  rootVn : Nat
  cwd : Nat
  deriving Repr, DecidableEq

/-- Read `pathname[i]` for an `int` index: `some` the character when the
index is inside the string, `none` past its end (the source only reads
indices inside the string on the paths exercised below). -/
def charAt (cs : List Char) (i : Int) : Option Char :=
  if 0 ≤ i then cs[i.toNat]? else none

/-- C `strncpy(dst, src, n)` restricted to the `dst` allocation: bytes
`0 ≤ i < n` of `dst` become `src[i]` when `i < strlen src` and the padding
byte `'\x00'` otherwise. -/
def strncpyList (dst src : List Char) (n : Nat) : List Char :=
  (List.range n).foldl (fun b i => b.set i (src.getD i '\x00')) dst

/-- C `memcpy(dst + off, src, n)` restricted to the `dst` allocation. -/
def memcpyAt (dst : List Char) (off : Nat) (src : List Char) (n : Nat) : List Char :=
  (List.range n).foldl (fun b i => b.set (off + i) (src.getD i '\x00')) dst

/-- The logical C string held in a buffer: the characters before the first
terminator byte. -/
def cstr (cs : List Char) : List Char :=
  cs.takeWhile (fun c => c != '\x00')

/-- Observable outcome of one call to `lookup`: the return code, the
contents of the caller's result slot after the call, the ghost log of
`vref`ed node ids, and whether `dir->vn_ops->lookup` was invoked. -/
structure LookupOut where
  ret : Int
  slot : Option Nat
  vrefs : List Nat
  delegated : Bool
  deriving Repr, DecidableEq

/-- Embedding of `lookup` (namev.c:28-47).  `dir` is the directory
argument, `nameo` the name argument (`none` = NULL pointer), `len` the
length argument, and `slot` the contents of `*result` on entry (the
callers always pass a valid `result` pointer, so only the pointed-to value
is modelled).  The source:
* returns `-1` when `dir`, `*result` or `name` is NULL;
* on `strcmp(name, ".") == 0` executes `result = &dir`, redirecting the
  output pointer to the local variable `dir`;
* returns `-ENOTDIR` when the node lacks a lookup operation;
* otherwise calls `dir->vn_ops->lookup(dir, name, len, result)` ignoring
  its return value, then `vref`s `*result` when it is non-null and
  returns `0`. -/
def lookup (fs : FS) (dir : Option Nat) (nameo : Option (List Char)) (len : Nat)
    (slot : Option Nat) : LookupOut :=
  match dir, nameo, slot with
  | some d, some name, some s =>
    let dotRedirect := name = ['.']
    if fs.hasLookup d then
      -- the cell `result` points to: the local `dir` when redirected,
      -- the caller's slot otherwise
      let cellBefore : Nat := if dotRedirect then d else s
      let cellAfter : Option Nat :=
        match fs.childLookup d name with
        | some c => some c
        | none => some cellBefore
      { ret := 0
        slot := if dotRedirect then some s else cellAfter
        vrefs := cellAfter.toList
        delegated := true }
    else
      { ret := -20, slot := some s, vrefs := [], delegated := false }
  | _, _, _ => { ret := -1, slot := slot, vrefs := [], delegated := false }

/-- Result of the inner component scan of `dir_namev` (namev.c:98-103):
`brk i` when the loop broke at a separator at index `i`, `done i` when the
loop condition `i < strlen(pathname)` failed. -/
inductive ScanRes
  | brk (i : Int)
  | done (i : Int)
  deriving Repr, DecidableEq

/-- Embedding of the inner scan loop of `dir_namev`:
`while(i < strlen(pathname)) { if(pathname[i] == '/') { end_index = i - 1; break; } }`.
The loop body never changes `i`, which the translation preserves. -/
def scanLoop (cs : List Char) (i : Int) : Nat → Option ScanRes
  | 0 => none
  | fuel + 1 =>
    if i < (cs.length : Int) then
      if charAt cs i = some '/' then some (.brk i) else scanLoop cs i fuel
    else some (.done i)

/-- State of `dir_namev`'s walk: the local variables of the source
function, the ghost `vref`/`vput` logs, and the values written through the
out-parameters `namelen`, `name` and `res_vnode` (`none` = never written). -/
structure NamevSt where
  start : Int
  endIdx : Int
  terminate : Bool
  prev : Option Nat
  next : Option Nat
  acquired : List Nat
  released : List Nat
  outLen : Option Nat
  outName : Option (List Char)
  outRes : Option (Option Nat)
  deriving Repr, DecidableEq

/-- Embedding of the outer `while(1)` loop of `dir_namev`
(namev.c:96-134).  One iteration: run the inner scan from `start_index`;
on `i == strlen(pathname)` set `end_index`/`terminate` and break (the
function then returns 0); otherwise build `next_name` from the characters
`start_index .. end_index`, take the dead `terminate == 1` branch if set,
else call `lookup` on it with the slot `&next_v_node`; on lookup failure
return `-1` (with no `vput`), on success `vput(prev_v_node)`, advance
`start_index = end_index + 2` and `prev_v_node = next_v_node`. -/
def dirNamevLoop (fs : FS) (cs : List Char) : NamevSt → Nat → Option (Int × NamevSt)
  | _, 0 => none
  | st, fuel + 1 =>
    match scanLoop cs st.start (fuel + 1) with
    | none => none
    | some res =>
      let i : Int := match res with | .brk j => j | .done j => j
      let st1 : NamevSt :=
        match res with
        | .brk j => { st with endIdx := j - 1 }
        | .done _ => st
      if i = (cs.length : Int) then
        some (0, { st1 with endIdx := (cs.length : Int) - 1, terminate := true })
      else
        let nextName : List Char :=
          (cs.drop st1.start.toNat).take (st1.endIdx - st1.start + 1).toNat
        if st1.terminate then
          some (0, { st1 with outLen := some nextName.length, outName := some nextName,
                              outRes := some st1.prev })
        else
          let lk := lookup fs st1.prev (some nextName) nextName.length st1.next
          let st2 := { st1 with next := lk.slot, acquired := st1.acquired ++ lk.vrefs }
          if lk.ret ≠ 0 then some (-1, st2)
          else
            dirNamevLoop fs cs
              { st2 with released := st2.released ++ st2.prev.toList,
                         start := st1.endIdx + 2,
                         prev := lk.slot }
              fuel

/-- The sequence of assignments selecting `dir_namev`'s starting node
(namev.c:80-90): `prev = NULL`; `if(pathname[0] == '/') prev = vfs_root_vn;`
then unconditionally `if(base == NULL) prev = curproc->p_cwd; else prev = base;`
— the second assignment overwrites the first. -/
def dirNamevStart (ctx : Ctx) (cs : List Char) (base : Option Nat) : Option Nat :=
  let prev0 : Option Nat := none
  let prev1 : Option Nat := if charAt cs 0 = some '/' then some ctx.rootVn else prev0
  let prev2 : Option Nat :=
    match base with
    | none => some ctx.cwd
    | some b => some b
  prev2

/-- Initial walk state of `dir_namev`: `start_index` from the leading
separator test, `end_index = 0`, `terminate = 0`, `prev_v_node` the
selected starting node with its `vref` logged, `next_v_node = NULL`, and
no out-parameter written yet. -/
def initNamevSt (ctx : Ctx) (cs : List Char) (base : Option Nat) : NamevSt :=
  { start := if charAt cs 0 = some '/' then 1 else 0
    endIdx := 0
    terminate := false
    prev := dirNamevStart ctx cs base
    next := none
    acquired := (dirNamevStart ctx cs base).toList
    released := []
    outLen := none
    outName := none
    outRes := none }

/-- Embedding of `dir_namev` (namev.c:68-136).  A NULL pathname returns
`-1` before any effect; otherwise the walk runs from the initial state.
`none` means the walk is still running when the fuel runs out. -/
def dir_namev (fs : FS) (ctx : Ctx) (pathname : Option (List Char)) (base : Option Nat)
    (fuel : Nat) : Option (Int × NamevSt) :=
  match pathname with
  | none =>
      some (-1, { start := 0, endIdx := 0, terminate := false, prev := none, next := none,
                  acquired := [], released := [], outLen := none, outName := none,
                  outRes := none })
  | some cs => dirNamevLoop fs cs (initNamevSt ctx cs base) fuel

/-- `O_CREAT` from the external `fs/fcntl.h` header. -/
def O_CREAT : Int := 256

/-- Observable outcome of `open_namev`: the return code together with the
value written through `res_vnode` (`none` = never written), or a crash
from dereferencing a null parent pointer in the create branch. -/
inductive OpenRes
  | ret (code : Int) (resOut : Option (Option Nat))
  | crash
  deriving Repr, DecidableEq

/-- Tail of `open_namev` after `dir_namev` returned 0 (namev.c:163-173):
`vnode_t* result = NULL;` then `lookup(dir_vnode, name, namelen, &result)`;
on its failure return `-1`; then the `flag == O_CREAT && result == NULL`
create branch (`dir_vnode->vn_ops->create(...)`, a null-pointer
dereference when `dir_vnode` is NULL); finally `return 0` — with no
assignment to `*res_vnode` anywhere. -/
def openFinish (fs : FS) (flag : Int) (dirV : Option Nat) (nm : Option (List Char))
    (nlen : Nat) : Option OpenRes :=
  if (lookup fs dirV nm nlen none).ret ≠ 0 then some (.ret (-1) none)
  else if flag = O_CREAT ∧ (lookup fs dirV nm nlen none).slot = none then
    match dirV with
    | none => some .crash
    | some d =>
        if fs.createRet d (nm.getD []) nlen = -1 then some (.ret (-1) none)
        else some (.ret 0 none)
  else some (.ret 0 none)

/-- Embedding of `open_namev` (namev.c:146-174).  The locals `namelen`,
`name` are what `dir_namev` wrote through them (the source leaves them
indeterminate when `dir_namev` returned without writing; `dir_vnode` then
still holds its NULL initialisation, so the subsequent `lookup` rejects
the call on its first test before reading the name). -/
def open_namev (fs : FS) (ctx : Ctx) (pathname : Option (List Char)) (flag : Int)
    (base : Option Nat) (fuel : Nat) : Option OpenRes :=
  match pathname with
  | none => some (.ret (-1) none)
  | some cs =>
    match dir_namev fs ctx (some cs) base fuel with
    | none => none
    | some (r, st) =>
      if r ≠ 0 then some (.ret (-1) none)
      else openFinish fs flag (st.outRes.getD none) st.outName (st.outLen.getD 0)

/-- Outcome of `lookup_name`: a return code with the final contents of the
caller's buffer, or the crash from dereferencing the null `dirent`
pointer. -/
inductive NameRes
  | ret (code : Int) (buf : List Char)
  | crash
  deriving Repr, DecidableEq

/-- Embedding of the scan loop of `lookup_name` (namev.c:199-221).
`dent` is the entry pointer, declared `struct dirent* dent = NULL;` and
never assigned afterwards: each iteration hands it to `readdir` and then
reads `dent->d_ino`, a null-pointer dereference whenever it is still
NULL.  The (consequently unreachable) non-null case models the body:
advance the offset, compare inode numbers, and on a match either copy the
full name, or — when `size < strlen(name) + 1` —
`strncpy(buf, name, size - 1)` followed by the store `buf[size] = '\x00'`
one byte past the capacity. -/
def lookupNameLoop (fs : FS) (d e : Nat) (buf : List Char) (size : Nat) :
    Int → Option (Nat × List Char) → Nat → Option NameRes
  | _, _, 0 => none
  | offset, dent, fuel + 1 =>
    if offset ≠ fs.vnLen d then
      match dent with
      | none => some .crash
      | some _ =>
        let offset2 := fs.readdirOff d offset
        let de := fs.readdirEnt d offset
        if de.1 = fs.ino e then
          let nameLength := de.2.length
          if size < nameLength + 1 then
            some (.ret (-34) ((strncpyList buf de.2 (size - 1)).set size '\x00'))
          else some (.ret 0 (strncpyList buf de.2 nameLength))
        else lookupNameLoop fs d e buf size offset2 (some de) fuel
    else some (.ret (-2) buf)

/-- Embedding of `lookup_name` (namev.c:194-225): the NULL-argument guard,
then the entry scan starting at offset 0 with the never-allocated NULL
entry pointer. -/
def lookup_name (fs : FS) (dir entry : Option Nat) (buf : List Char) (size : Nat)
    (fuel : Nat) : Option NameRes :=
  match dir, entry with
  | some d, some e => lookupNameLoop fs d e buf size 0 none fuel
  | _, _ => some (.ret (-1) buf)

/-- The external `STR_MAX` macro (scratch-buffer size in
`lookup_dirpath`); its exact value is immaterial to the results below. -/
def STR_MAX : Nat := 32

/-- Outcome of the child-to-root walk of `lookup_dirpath`: the collected
segment list (root-ward first) with the running total length, an early
`return -1` from a failed `lookup_name`, or a propagated crash. -/
inductive DirpathStep
  | done (names : List (List Char)) (total : Nat)
  | errOut (code : Int)
  | crash
  deriving Repr, DecidableEq

/-- Embedding of the `while(up_vnode != low_vnode)` walk of
`lookup_dirpath` (namev.c:255-268).  Each iteration: allocate and zero a
`STR_MAX` scratch buffer, run `lookup_name(up_vnode, low_vnode,
namebuf + 1, STR_MAX - 1)` on its tail (returning `-1` on its failure),
prepend `'/'`, push the segment at the head of the list, add its `strlen`
to the running total, then `low_vnode = up_vnode` and
`lookup(low_vnode, "..", 3, &up_vnode)` with the current `up_vnode` as the
slot contents. -/
def dirpathLoop (fs : FS) : Option Nat → Option Nat → List (List Char) → Nat → Nat →
    Option DirpathStep
  | _, _, _, _, 0 => none
  | up, low, names, total, fuel + 1 =>
    if up ≠ low then
      match lookup_name fs up low (List.replicate (STR_MAX - 1) '\x00') (STR_MAX - 1)
          (fuel + 1) with
      | none => none
      | some .crash => some .crash
      | some (.ret code tailBuf) =>
        if code ≠ 0 then some (.errOut (-1))
        else
          let seg := cstr ('/' :: tailBuf)
          let lk := lookup fs up (some ['.', '.']) 3 up
          dirpathLoop fs lk.slot up (seg :: names) (total + seg.length) fuel
    else some (.done names total)

/-- The copy loop of `lookup_dirpath` (namev.c:274-295): for each segment
in list order, when `offset < osize - 1` either copy it whole and advance,
or copy the `remaining_length - 1` bytes that fit, terminate at
`buf[osize - 1]`, and pin `offset` to `osize - 1`. -/
def dirpathCopy (osize : Nat) : List Char → Nat → List (List Char) → List Char × Nat
  | buf, offset, [] => (buf, offset)
  | buf, offset, seg :: rest =>
    if offset < osize - 1 then
      let req := seg.length
      let rem := osize - offset
      if req ≤ rem - 1 then
        dirpathCopy osize (memcpyAt buf offset seg req) (offset + req) rest
      else
        dirpathCopy osize ((memcpyAt buf offset seg (rem - 1)).set (osize - 1) '\x00')
          (osize - 1) rest
    else dirpathCopy osize buf offset rest

/-- Outcome of `lookup_dirpath`: return code with the final contents of
the caller's buffer, or a propagated crash. -/
inductive DirpathRes
  | ret (code : Int) (buf : List Char)
  | crash
  deriving Repr, DecidableEq

/-- Embedding of `lookup_dirpath` (namev.c:243-299): the NULL/size guards
(`-ENOENT`, `-EINVAL`), the initial `lookup(dir, "..", 3, &up_vnode)` with
`up_vnode = NULL` as the slot contents and its return value discarded, the
child-to-root walk, the `total_length + 1 > osize` early `-ERANGE` return
(buffer untouched), the copy loop, and the epilogue
`if(offset < osize - 1) buf[offset + 1] = '\x00';` before `return 0`. -/
def lookup_dirpath (fs : FS) (dir : Option Nat) (buf : Option (List Char)) (osize : Nat)
    (fuel : Nat) : Option DirpathRes :=
  match dir with
  | none => some (.ret (-2) (buf.getD []))
  | some d =>
    match buf with
    | none => some (.ret (-22) [])
    | some b =>
      if osize = 0 then some (.ret (-22) b)
      else
        match dirpathLoop fs (lookup fs (some d) (some ['.', '.']) 3 none).slot (some d)
            [] 0 fuel with
        | none => none
        | some .crash => some .crash
        | some (.errOut c) => some (.ret c b)
        | some (.done names total0) =>
          if osize < total0 + 1 then some (.ret (-34) b)
          else
            let bo := dirpathCopy osize b 0 names
            if bo.2 < osize - 1 then some (.ret 0 (bo.1.set (bo.2 + 1) '\x00'))
            else some (.ret 0 bo.1)

/-- Concrete example file system used by the closed evaluations: node 0 is
the root directory (children `bin` → 1, `tmp` → 3), node 1 is `bin`
(child `ls` → 2, one directory entry of inode 2 named `abc`), node 2 is
the plain file `ls` (no lookup operation), node 3 is `tmp` (empty), and
node 5 is the current working directory.  Inode numbers equal node ids. -/
def exFS : FS :=
  { hasLookup := fun n => n != 2
    childLookup := fun d nm =>
      if d = 0 ∧ nm = ['b', 'i', 'n'] then some 1
      else if d = 0 ∧ nm = ['t', 'm', 'p'] then some 3
      else if d = 1 ∧ nm = ['l', 's'] then some 2
      else if nm = ['.'] then some d
      else if nm = ['.', '.'] then some (if d = 1 ∨ d = 3 ∨ d = 5 then 0 else d)
      else none
    vnLen := fun _ => 1
    readdirOff := fun _ o => o + 1
    readdirEnt := fun d _ => if d = 1 then (2, ['a', 'b', 'c']) else (0, ['x'])
    ino := fun n => n
    createRet := fun _ _ _ => 0 }

/-- Concrete context: global root node 0, current working directory
node 5. -/
def exCtx : Ctx := ⟨0, 5⟩

/-- Helper: the first guard of `lookup` rejects a NULL `*result` with `-1`
for every file system, directory, name and length, leaving the slot
untouched, performing no `vref` and invoking no node operation. -/
theorem lookup_slot_none (fs : FS) (dir : Option Nat) (nameo : Option (List Char))
    (len : Nat) :
    lookup fs dir nameo len none =
      { ret := -1, slot := none, vrefs := [], delegated := false } := by
  cases dir <;> cases nameo <;> rfl

/-- Helper: the tail of `open_namev` always returns `-1` without writing
`*res_vnode`, because its local `result` is NULL and `lookup` rejects a
NULL `*result`. -/
theorem openFinish_null_result (fs : FS) (flag : Int) (dirV : Option Nat)
    (nm : Option (List Char)) (nlen : Nat) :
    openFinish fs flag dirV nm nlen = some (.ret (-1) none) := by
  cases dirV <;> cases nm <;> rfl

/-- Helper: the inner component scan of `dir_namev` never terminates when
the character at the scan index is inside the string and is not a
separator, because the loop body never changes the index. -/
theorem scanLoop_stuck (cs : List Char) (i : Int) (h1 : i < (cs.length : Int))
    (h2 : charAt cs i ≠ some '/') : ∀ fuel, scanLoop cs i fuel = none := by
  intro fuel
  induction fuel with
  | zero => rfl
  | succ f ih => simp only [scanLoop, if_pos h1, if_neg h2, ih]

/-- Helper: the walk of `dir_namev` never returns when the character at
the current scan index is inside the string and is not a separator. -/
theorem dirNamevLoop_stuck (fs : FS) (cs : List Char) (st : NamevSt)
    (h1 : st.start < (cs.length : Int)) (h2 : charAt cs st.start ≠ some '/') :
    ∀ fuel, dirNamevLoop fs cs st fuel = none := by
  intro fuel
  cases fuel with
  | zero => rfl
  | succ f => simp only [dirNamevLoop, scanLoop_stuck cs st.start h1 h2 (f + 1)]

/-- C1: refuted on the code (code bug).  On the failure exit taken when an
intermediate component lookup fails (`dir_namev("//x", ..., NULL, ...)`
returns `-1`) and on the end-of-string exit (`dir_namev("/", ...)` returns
`0` with no out-parameter written), `dir_namev` has acquired one reference
on the starting node (`curproc->p_cwd`, node 5) and has neither released
it nor transferred it through `res_vnode`: the acquired log is `[5]`, the
released log is empty, and `outRes` is `none`.  The claim says every
acquired reference not transferred to the caller is released before
return on every exit path. -/
theorem dir_namev_leaks_start_reference :
    dir_namev exFS exCtx (some ['/', '/', 'x']) none 5 =
      some (-1, { start := 1, endIdx := 0, terminate := false, prev := some 5, next := none,
                  acquired := [5], released := [], outLen := none, outName := none,
                  outRes := none }) ∧
    dir_namev exFS exCtx (some ['/']) none 5 =
      some (0, { start := 1, endIdx := 0, terminate := true, prev := some 5, next := none,
                 acquired := [5], released := [], outLen := none, outName := none,
                 outRes := none }) := ⟨rfl, rfl⟩

/-- C2: refuted on the code (code bug).  On the directory tree
root → `bin` → `ls` of `exFS`, the call `dir_namev("/bin/ls", ...)` never
returns for any amount of fuel: the component scan loops forever at the
first character of `bin`, so the call cannot produce `namelen = 2`,
`name = "ls"` and the `bin` node. -/
theorem dir_namev_bin_ls_diverges (fuel : Nat) :
    dir_namev exFS exCtx (some ['/', 'b', 'i', 'n', '/', 'l', 's']) none fuel = none :=
  dirNamevLoop_stuck exFS ['/', 'b', 'i', 'n', '/', 'l', 's']
    (initNamevSt exCtx ['/', 'b', 'i', 'n', '/', 'l', 's'] none) (by decide) (by decide) fuel

/-- C3: refuted on the code (code bug).  The starting-node selection of
`dir_namev` always yields `base` when given and `curproc->p_cwd`
otherwise, for every pathname: the assignment of `vfs_root_vn` for a
leading separator is unconditionally overwritten.  Concretely, for the
absolute path `"/a"` under `exCtx` (root node 0, cwd node 5) the walk
starts at node 5 with `base = NULL` and at node 7 with `base` = node 7 —
never at the global root.  The claim says a leading separator selects
`vfs_root_vn` regardless of `base`. -/
theorem dir_namev_start_ignores_root :
    (∀ (ctx : Ctx) (cs : List Char) (base : Option Nat),
        dirNamevStart ctx cs base = some (base.getD ctx.cwd)) ∧
    dirNamevStart exCtx ['/', 'a'] none = some 5 ∧
    dirNamevStart exCtx ['/', 'a'] (some 7) = some 7 := by
  refine ⟨fun ctx cs base => ?_, rfl, rfl⟩
  cases base <;> rfl

/-- C4: refuted on the code (code bug).  For every file system, context,
pathname, flag, base and fuel, `open_namev` either never returns (its walk
diverges) or returns `-1` having never written `*res_vnode`: its local
`result` is initialised to NULL, so the final `lookup` always fails on the
NULL-`*result` guard before the create branch, and the function contains
no assignment to `*res_vnode` at all.  The claim says it returns success
with the resolved or created node stored in `*res_vnode`. -/
theorem open_namev_never_stores_result :
    ∀ (fs : FS) (ctx : Ctx) (p : Option (List Char)) (flag : Int) (base : Option Nat)
      (fuel : Nat),
      open_namev fs ctx p flag base fuel = none ∨
      open_namev fs ctx p flag base fuel = some (.ret (-1) none) := by
  intro fs ctx p flag base fuel
  cases p with
  | none => exact Or.inr rfl
  | some cs =>
    cases hd : dir_namev fs ctx (some cs) base fuel with
    | none => exact Or.inl (by simp only [open_namev, hd])
    | some pr =>
      refine Or.inr ?_
      obtain ⟨r, st⟩ := pr
      simp only [open_namev, hd]
      by_cases hr : r ≠ 0
      · rw [if_pos hr]
      · rw [if_neg hr]
        exact openFinish_null_result fs flag _ _ _

/-- C5: refuted on the code (code bug).  On `exFS`, where `/tmp` exists
and `new` is absent under it, `open_namev("/tmp/new", 0, &res_vnode,
NULL)` never returns for any amount of fuel — `dir_namev`'s scan loops
forever — so in particular it never fails with `-ENOENT`.  (On the inputs
where `dir_namev` does return, `open_namev` returns the generic `-1` from
the NULL-`*result` lookup guard, never `-ENOENT`; see the C4 theorem.)
The claim says it fails with `NotFound`. -/
theorem open_namev_tmp_new_diverges (fuel : Nat) :
    open_namev exFS exCtx (some ['/', 't', 'm', 'p', '/', 'n', 'e', 'w']) 0 none fuel =
      none := by
  have hd : dir_namev exFS exCtx (some ['/', 't', 'm', 'p', '/', 'n', 'e', 'w']) none fuel =
      none :=
    dirNamevLoop_stuck exFS ['/', 't', 'm', 'p', '/', 'n', 'e', 'w']
      (initNamevSt exCtx ['/', 't', 'm', 'p', '/', 'n', 'e', 'w'] none) (by decide)
      (by decide) fuel
  simp only [open_namev, hd]

/-- C6: refuted on the code (code bug).  On `exFS`, where directory 1 has
one entry of inode 2 named `"abc"`, `lookup_name(dir1, node2, buf, 3)`
crashes dereferencing the never-allocated NULL `dirent` pointer before any
truncation handling, instead of returning `-ERANGE` with `"ab\x00"` in the
buffer; and `lookup_dirpath(node1, buf, 3)` returns `-1` (from the failed
NULL-slot `".."` lookup chain) with the 3-byte buffer completely
untouched — no `-ERANGE`, no null-terminated prefix within capacity. -/
theorem lookup_name_truncation_crashes :
    lookup_name exFS (some 1) (some 2) ['x', 'x', 'x'] 3 5 = some .crash ∧
    lookup_dirpath exFS (some 1) (some ['x', 'x', 'x']) 3 5 =
      some (.ret (-1) ['x', 'x', 'x']) := ⟨rfl, rfl⟩

/-- C7: refuted on the code (code bug).  Resolving `"."` in directory 1 of
`exFS` with the caller's slot holding node 2 returns success, but the
caller's slot still holds node 2 — not the directory — because
`result = &dir` redirects the output to a local variable; the call
delegates to the directory's own lookup operation (`delegated = true`) and
`vref`s what that operation stored in the local.  The claim says `"."`
yields the directory itself in `*result` with one incremented reference
and no delegation. -/
theorem lookup_dot_delegates_and_drops_result :
    lookup exFS (some 1) (some ['.']) 1 (some 2) =
      { ret := 0, slot := some 2, vrefs := [1], delegated := true } := rfl

/-- C8: refuted on the code (code bug).  On `exFS`, whose root (node 0) is
its own `".."`, `lookup_dirpath(rootNode, buf, 64)` returns `-1` with the
64-byte buffer completely untouched: the initial
`lookup(dir, "..", 3, &up_vnode)` fails on the NULL-`*result` guard
leaving `up_vnode` NULL ≠ `dir`, so the walk calls
`lookup_name(NULL, ...)` which fails.  The claim says it returns success
with exactly `"/"` in the buffer. -/
theorem lookup_dirpath_root_fails :
    lookup_dirpath exFS (some 0) (some (List.replicate 64 'x')) 64 5 =
      some (.ret (-1) (List.replicate 64 'x')) := rfl

/-- C9: refuted on the code (code bug).  The single-component call
`dir_namev("a", ...)` never returns for any base node and any amount of
fuel: the component scan `while(i < strlen(pathname))` never increments
`i`, so it makes no progress through the string.  The claim says every
call terminates. -/
theorem dir_namev_single_component_diverges (base : Option Nat) (fuel : Nat) :
    dir_namev exFS exCtx (some ['a']) base fuel = none :=
  dirNamevLoop_stuck exFS ['a'] (initNamevSt exCtx ['a'] base)
    (show (0 : Int) < (1 : Int) by decide)
    (show charAt ['a'] 0 ≠ some '/' by decide) fuel

/-- C10: confirmed.  Whenever `lookup` is called with a result slot whose
stored pointer is NULL, it returns `-1` immediately for every file system
(so without consulting the directory's capability set), leaves the slot
untouched, `vref`s nothing and never delegates; and the internal
NULL-initialised slots make the component lookup of `dir_namev` fail
(shown on `"//"`, which reaches the first `lookup` call and returns `-1`)
and the `".."` lookups of `lookup_dirpath` fail (shown on node 3, which
returns `-1` from the resulting `lookup_name(NULL, ...)`). -/
theorem lookup_null_slot_guard :
    (∀ (fs : FS) (d : Nat) (nm : List Char) (len : Nat),
        lookup fs (some d) (some nm) len none =
          { ret := -1, slot := none, vrefs := [], delegated := false }) ∧
    dir_namev exFS exCtx (some ['/', '/']) none 5 =
      some (-1, { start := 1, endIdx := 0, terminate := false, prev := some 5, next := none,
                  acquired := [5], released := [], outLen := none, outName := none,
                  outRes := none }) ∧
    lookup_dirpath exFS (some 3) (some (List.replicate 8 'x')) 8 5 =
      some (.ret (-1) (List.replicate 8 'x')) :=
  ⟨fun _ _ _ _ => rfl, rfl, rfl⟩
